import Mathlib

/-!
Verification of the AI trading model-serving service (`src/ai-models/main.py`)
against its natural-language specification.

Shallow embedding conventions:
  * Python floats are modelled as rationals; none of the verified
    properties depend on IEEE rounding.
  * The FastAPI endpoint functions of `main.py` are embedded directly.
    The module-level service singletons (`trading_models`,
    `strategy_service`, `risk_service`) become an explicit `ServiceState`
    record, `None` becoming `Option.none`.
  * Python's try/except Exception pattern of every endpoint — any raised
    exception is re-raised as `HTTPException(status_code=500,
    detail=str(e))` — is embedded as `toServerError`.
  * The service classes themselves (`models/trading_models.py`,
    `services/*.py`) are not part of the source tree; where a claim needs
    their behaviour they are modelled from the spec, and each such
    definition carries a doc comment starting with `Modelled from the
    spec:`.
-/

/-- Feature vectors supplied to a scoring function (a JSON dict of numbers). -/
abbrev Features := List (String × ℚ)

/-- Market data: per-symbol price series, the ambient input of risk scoring. -/
abbrev MarketData := List (String × List ℚ)

/-- Trading action of a prediction, the canonical set buy, sell, hold. -/
inductive TradeAction
  | buy
  | sell
  | hold
deriving DecidableEq, Repr

/-- String rendering of an action, as it appears in the JSON response. -/
def TradeAction.toStr : TradeAction → String
  | .buy => "buy"
  | .sell => "sell"
  | .hold => "hold"

/-- Lifecycle status of a model handle (spec section 3). -/
inductive ModelStatus
  | loading
  | ready
  | retired
deriving DecidableEq, Repr

/-- Raw output of an opaque scoring function, before normalization. -/
structure RawOutput where
  action : TradeAction
  confidence : ℚ
  target_price : Option ℚ
  stop_loss : Option ℚ
  reasoning : String

/-- A loaded model: version, status and an opaque scoring function
(spec section 3, Model Handle). -/
structure ModelHandle where
  version : Nat
  status : ModelStatus
  score : Features → RawOutput

/-- Typed failures of the inference coordinator (spec section 7). -/
inductive PredErr
  | modelUnavailable (symbol : String)
  | upstreamDataError (detail : String)
  | timeoutErr
deriving DecidableEq, Repr

/-- The message a raised prediction error carries (Python str of the
exception). -/
def PredErr.toStr : PredErr → String
  | .modelUnavailable s => "ModelUnavailable: no ready model for " ++ s
  | .upstreamDataError d => "UpstreamDataError: " ++ d
  | .timeoutErr => "Timeout"

/-- The prediction dict produced by `TradingModelManager.predict` and
consumed by the `/predict` endpoint and the websocket loop. -/
structure PredDict where
  action : TradeAction
  confidence : ℚ
  target_price : Option ℚ
  stop_loss : Option ℚ
  reasoning : String
  timestamp : String
  modelVersion : Nat
deriving DecidableEq, Repr

/-- State of the model manager: the registry of loaded models keyed by
identifier, the feature-fetching capability of the data provider, and the
current clock reading used to stamp results. -/
structure TradingModelManager where
  models : List (String × ModelHandle)
  fetchFeatures : String → String → Except String Features
  now : String

/-- Clamp a rational into the unit interval, as normalization does to
the confidence output. -/
def clamp01 (q : ℚ) : ℚ := max 0 (min 1 q)

/-- Registry lookup: the current handle for a model id, provided it is
ready (spec section 4.1). -/
def lookupReady (models : List (String × ModelHandle)) (modelId : String) :
    Option ModelHandle :=
  match models.find? (fun p => p.1 == modelId) with
  | some p => if p.2.status = ModelStatus.ready then some p.2 else none
  | none => none

/-- Modelled from the spec: `TradingModelManager.predict` lives in
`models/trading_models.py`, which is not under src/. Spec section 4.2:
resolve the model id from the symbol, fail with `ModelUnavailable` when
the registry has no ready handle, fetch features when the caller supplied
none (failures surface as `UpstreamDataError`), invoke the opaque scoring
function, and normalize the output, clamping confidence into the unit
interval. The result records the version of the handle used. -/
def TradingModelManager.predict (m : TradingModelManager)
    (symbol timeframe : String) (features : Option Features) :
    Except PredErr PredDict :=
  match lookupReady m.models symbol with
  | none => .error (.modelUnavailable symbol)
  | some h =>
    match (match features with
           | some f => Except.ok f
           | none => m.fetchFeatures symbol timeframe) with
    | .error d => .error (.upstreamDataError d)
    | .ok f =>
      let raw := h.score f
      .ok { action := raw.action
            confidence := clamp01 raw.confidence
            target_price := raw.target_price
            stop_loss := raw.stop_loss
            reasoning := raw.reasoning
            timestamp := m.now
            modelVersion := h.version }

/-- Typed failure of the risk assessor (spec sections 4.4 and 7). -/
inductive RiskErr
  | invalidPortfolio (detail : String)
deriving DecidableEq, Repr

/-- Message carried by a raised risk error. -/
def RiskErr.toStr : RiskErr → String
  | .invalidPortfolio d => "InvalidPortfolio: " ++ d

/-- Risk level of a portfolio report. -/
inductive RiskLevel
  | low
  | medium
  | high
deriving DecidableEq, Repr

/-- The risk report returned by the risk assessor (spec section 4.4). -/
structure RiskReport where
  risk_score : ℚ
  risk_level : RiskLevel
  recommendations : List String
deriving DecidableEq, Repr

/-- The risk service: its numeric scoring and advisory text are opaque
capabilities of current market data and position sizing, carried as plain
functions (spec treats the math as an opaque scoring function). -/
structure RiskService where
  scoreOf : MarketData → List String → ℚ → ℚ
  adviceOf : MarketData → List String → ℚ → List String

/-- Risk level derived from the numeric score by fixed thresholds. -/
def riskLevelOf (q : ℚ) : RiskLevel :=
  if q < 1 / 3 then .low else if q < 2 / 3 then .medium else .high

/-- Detail message of the invalid-portfolio failure. -/
def invalidPortfolioMsg : String :=
  "portfolio_value must be positive and symbols must be non-empty"

/-- Modelled from the spec: `RiskService.assess_portfolio_risk` lives in
`services/risk_service.py`, which is not under src/. Spec section 4.4:
fail with `InvalidPortfolio` when portfolio_value is non-positive or the
symbols list is empty; otherwise produce a report as a pure function of
market data and position sizing, with no shared mutable state. -/
def RiskService.assess_portfolio_risk (svc : RiskService) (md : MarketData)
    (symbols : List String) (portfolio_value : ℚ) :
    Except RiskErr RiskReport :=
  if portfolio_value ≤ 0 ∨ symbols = [] then
    .error (.invalidPortfolio invalidPortfolioMsg)
  else
    .ok { risk_score := svc.scoreOf md symbols portfolio_value
          risk_level := riskLevelOf (svc.scoreOf md symbols portfolio_value)
          recommendations := svc.adviceOf md symbols portfolio_value }

/-- Typed failure of the strategy evaluator (spec section 7). -/
inductive StratErr
  | strategyUnavailable
deriving DecidableEq, Repr

/-- Message carried by a raised strategy error. -/
def StratErr.toStr : StratErr → String
  | .strategyUnavailable => "StrategyUnavailable: all symbols failed"

/-- A per-symbol recommendation entry of a strategy result: valid when
the symbol's prediction succeeded, degraded when it failed. -/
inductive Recommendation
  | valid (symbol : String) (p : PredDict)
  | degraded (symbol : String) (reason : String)
deriving DecidableEq, Repr

/-- The strategy result (spec section 3, Strategy Result). -/
structure StrategyResult where
  strategy_id : String
  recommendations : List Recommendation
  risk_score : ℚ
  expected_return : ℚ
  timestamp : String
deriving DecidableEq, Repr

/-- The strategy service: the aggregation of per-symbol recommendations
into a risk score and expected return is a pluggable combination policy
(spec section 4.3), carried as a function; strategy ids come from an
opaque generator. -/
structure StrategyService where
  combine : List Recommendation → ℚ × ℚ
  nextId : String

/-- The recommendation entry the evaluator builds for one symbol: a valid
entry from a successful prediction, a degraded entry naming the failure
otherwise. -/
def recEntry (mgr : TradingModelManager) (s : String) : Recommendation :=
  match mgr.predict s "1d" none with
  | .ok d => .valid s d
  | .error e => .degraded s e.toStr

/-- Modelled from the spec: `StrategyService.analyze_strategy` lives in
`services/strategy_service.py`, which is not under src/. Spec section
4.3: obtain a prediction per symbol via the inference coordinator;
per-symbol failures are tolerated and reported as degraded entries,
unless every symbol fails, in which case the whole call fails with
`StrategyUnavailable`. Aggregation goes through the pluggable policy.
(The spec allows the per-symbol calls to run concurrently; the embedding
evaluates them independently in order, which the claims do not
distinguish.) -/
def StrategyService.analyze_strategy (svc : StrategyService)
    (mgr : TradingModelManager) (symbols : List String)
    (strategy_type : String) : Except StratErr StrategyResult :=
  if symbols.all (fun s => !(mgr.predict s "1d" none).isOk) then
    .error .strategyUnavailable
  else
    .ok { strategy_id := svc.nextId ++ "-" ++ strategy_type
          recommendations := symbols.map (recEntry mgr)
          risk_score := (svc.combine (symbols.map (recEntry mgr))).1
          expected_return := (svc.combine (symbols.map (recEntry mgr))).2
          timestamp := mgr.now }

/-- The module-level service singletons of `main.py` as one explicit
state record; `None` is `none`. -/
structure ServiceState where
  trading_models : Option TradingModelManager
  strategy_service : Option StrategyService
  risk_service : Option RiskService

/-- A Python exception raised inside an endpoint's try block: either an
`HTTPException` raised directly (the 503 not-initialized guard) or a
typed service error. -/
inductive PyExc
  | http (status : Nat) (detail : String)
  | pred (e : PredErr)
  | risk (e : RiskErr)
  | strat (e : StratErr)
deriving DecidableEq, Repr

/-- Python str of the exception, as interpolated into the 500 detail.
For `HTTPException`, starlette renders status and detail. -/
def PyExc.str : PyExc → String
  | .http status detail => toString status ++ ": " ++ detail
  | .pred e => e.toStr
  | .risk e => e.toStr
  | .strat e => e.toStr

/-- The HTTP error a client receives from a failed endpoint call. -/
structure HTTPError where
  status : Nat
  detail : String
deriving DecidableEq, Repr

/-- The except-Exception handler every endpoint of `main.py` wraps around
its body: any exception raised inside the try block — including an
`HTTPException` — is caught and re-raised as status 500 with the string
of the caught exception as detail. -/
def toServerError {α : Type} : Except PyExc α → Except HTTPError α
  | .ok a => .ok a
  | .error e => .error { status := 500, detail := e.str }

/-- Request body of `/predict` (`PredictionRequest` in `main.py`). -/
structure PredictionRequest where
  symbol : String
  timeframe : String := "1d"
  features : Option Features := none

/-- Response body of `/predict` (`PredictionResponse` in `main.py`):
symbol, prediction string, confidence, optional target price and stop
loss, reasoning, timestamp. The pydantic model has no model-version
field. -/
structure PredictionResponse where
  symbol : String
  prediction : String
  confidence : ℚ
  target_price : Option ℚ := none
  stop_loss : Option ℚ := none
  reasoning : String
  timestamp : String
deriving DecidableEq, Repr

/-- The try block of the `/predict` endpoint: raise the 503
`HTTPException` when `trading_models` is `None`, otherwise call the
manager and build the response from the prediction dict. -/
def predictTry (st : ServiceState) (req : PredictionRequest) :
    Except PyExc PredictionResponse :=
  match st.trading_models with
  | none => .error (.http 503 "Trading models not initialized")
  | some m =>
    match m.predict req.symbol req.timeframe req.features with
    | .error e => .error (.pred e)
    | .ok p =>
      .ok { symbol := req.symbol
            prediction := p.action.toStr
            confidence := p.confidence
            target_price := p.target_price
            stop_loss := p.stop_loss
            reasoning := p.reasoning
            timestamp := p.timestamp }

/-- The `/predict` endpoint of `main.py`: the try body under the
except-Exception-to-500 handler. -/
def predict (st : ServiceState) (req : PredictionRequest) :
    Except HTTPError PredictionResponse :=
  toServerError (predictTry st req)

/-- Response of `/health` in `main.py`. -/
structure HealthResponse where
  status : String
  service : String
  version : String
  models_loaded : Nat
deriving DecidableEq, Repr

/-- The `/health` endpoint of `main.py`: a total function of the service
state, reporting zero loaded models when the manager is `None`. -/
def health_check (st : ServiceState) : HealthResponse :=
  { status := "healthy"
    service := "ai-trading-models"
    version := "1.0.0"
    models_loaded :=
      match st.trading_models with
      | some m => m.models.length
      | none => 0 }

/-- Execution phase of a background task handed to the FastAPI runtime by
`background_tasks.add_task`. -/
inductive TaskPhase
  | scheduled
  | running
  | done
deriving DecidableEq, Repr, BEq

/-- A background retrain task: the symbols argument it was scheduled with
(Python `None` meaning all models) and its execution phase. -/
structure Job where
  target : Option (List String)
  phase : TaskPhase
deriving DecidableEq, Repr

/-- Response body of `/retrain` in `main.py`: the literal message and the
constant task id. -/
structure RetrainResponse where
  message : String
  task_id : String
deriving DecidableEq, Repr

/-- The `/retrain` endpoint of `main.py`: after the 503 guard it
unconditionally appends one background task carrying the symbols argument
(`background_tasks.add_task(trading_models.retrain_models, symbols)`) and
returns the constant message and task id. There is no check against
already scheduled or running retrain tasks. -/
def retrain_models (st : ServiceState) (tasks : List Job)
    (symbols : Option (List String)) :
    Except HTTPError (RetrainResponse × List Job) :=
  match st.trading_models with
  | none =>
    .error { status := 500
             detail := PyExc.str (.http 503 "Trading models not initialized") }
  | some _ =>
    .ok ({ message := "Model retraining started in background"
           task_id := "retrain_models" },
         tasks ++ [{ target := symbols, phase := TaskPhase.scheduled }])

/-- Modelled from the FastAPI runtime (an external collaborator):
background tasks added by distinct requests execute on independent
execution contexts. Any scheduled task may start running and any running
task may finish, at any time, independently of every other task — nothing
in `main.py` serializes retrain tasks per model id. -/
inductive TaskStep : List Job → List Job → Prop
  | start (pre post : List Job) (t : Option (List String)) :
      TaskStep (pre ++ { target := t, phase := TaskPhase.scheduled } :: post)
               (pre ++ { target := t, phase := TaskPhase.running } :: post)
  | finish (pre post : List Job) (t : Option (List String)) :
      TaskStep (pre ++ { target := t, phase := TaskPhase.running } :: post)
               (pre ++ { target := t, phase := TaskPhase.done } :: post)

/-- Number of running retrain tasks that target a given symbol. -/
def runningFor (sym : String) (jobs : List Job) : Nat :=
  (jobs.filter (fun j =>
    j.phase == TaskPhase.running && (j.target.getD []).contains sym)).length

/-- A message arriving on the `/ws/predictions` websocket: either text
that is not valid JSON, or a parsed request with its optional symbol and
timeframe fields. -/
inductive ClientMsg
  | malformed (raw : String)
  | request (symbol : Option String) (timeframe : Option String)

/-- Python truthiness test `not symbol` on the value of
`request_data.get("symbol")`: true for a missing key and for an empty
string. -/
def falsyStr : Option String → Bool
  | none => true
  | some s => s.isEmpty

/-- A message the websocket loop sends back to its listener: an inline
error dict or a prediction dict. -/
inductive WsOut
  | errorMsg (detail : String)
  | prediction (p : PredDict)
deriving DecidableEq, Repr

/-- Detail string of a JSON decode failure caught by the inner handler. -/
def jsonDecodeErrMsg : String := "JSONDecodeError: invalid request payload"

/-- Detail string of the AttributeError raised when the websocket loop
calls `trading_models.predict` while `trading_models` is still `None`. -/
def noneMgrErrMsg : String :=
  "AttributeError: NoneType object has no attribute predict"

/-- One iteration of the `/ws/predictions` loop body in `main.py`: parse
the message (a JSON failure is caught by the inner handler and reported
inline), answer a missing or empty symbol with the inline error dict and
continue, otherwise run a prediction with the requested or default
timeframe and send either the prediction dict or the inline error dict
for the caught exception. No branch closes the connection. -/
def wsHandleMsg (st : ServiceState) (m : ClientMsg) : WsOut :=
  match m with
  | .malformed _ => .errorMsg jsonDecodeErrMsg
  | .request sym tf =>
    if falsyStr sym then .errorMsg "Symbol required"
    else
      match st.trading_models with
      | none => .errorMsg noneMgrErrMsg
      | some mgr =>
        match mgr.predict (sym.getD "") (tf.getD "1d") none with
        | .ok p => .prediction p
        | .error e => .errorMsg e.toStr

/-- The `/ws/predictions` endpoint of `main.py`, one connection: the loop
handles each received message in order and only terminates when the
transport itself stops delivering messages (disconnect), modelled by the
end of the input list. Each connected listener is an independent
invocation of this function, so an output sent here reaches this listener
only. -/
def websocket_predictions (st : ServiceState) (msgs : List ClientMsg) :
    List WsOut :=
  msgs.map (wsHandleMsg st)

/-- The `/risk-assessment` endpoint of `main.py`: the 503 guard, the
delegation to `risk_service.assess_portfolio_risk`, and the
except-Exception-to-500 handler. The market data argument stands for the
ambient market data the service reads. -/
def assess_risk (st : ServiceState) (md : MarketData)
    (symbols : List String) (portfolio_value : ℚ) :
    Except HTTPError RiskReport :=
  toServerError (match st.risk_service with
  | none => .error (.http 503 "Risk service not initialized")
  | some svc =>
    match svc.assess_portfolio_risk md symbols portfolio_value with
    | .error e => .error (.risk e)
    | .ok r => .ok r)

/-- A ready model handle at a given version with a fixed scoring output,
used as a concrete fixture. -/
def handleV (v : Nat) : ModelHandle :=
  { version := v
    status := ModelStatus.ready
    score := fun _ =>
      { action := TradeAction.buy
        confidence := 7 / 10
        target_price := none
        stop_loss := none
        reasoning := "momentum" } }

/-- A concrete manager whose registry holds one ready AAPL model at the
given version. -/
def mgrV (v : Nat) : TradingModelManager :=
  { models := [("AAPL", handleV v)]
    fetchFeatures := fun _ _ => .ok []
    now := "2024-01-01T00:00:00Z" }

/-- A concrete service state with the manager initialized. -/
def stV (v : Nat) : ServiceState :=
  { trading_models := some (mgrV v)
    strategy_service := none
    risk_service := none }

/-- The uninitialized service state: every singleton is still None. -/
def stNone : ServiceState :=
  { trading_models := none
    strategy_service := none
    risk_service := none }

/-- A concrete risk service fixture. -/
def svcRisk : RiskService :=
  { scoreOf := fun _ _ _ => 1 / 2
    adviceOf := fun _ _ _ => ["diversify holdings"] }

/-- A concrete service state with only the risk service initialized. -/
def stRisk : ServiceState :=
  { trading_models := none
    strategy_service := none
    risk_service := some svcRisk }

/-- A concrete strategy service fixture. -/
def svcStrat : StrategyService :=
  { combine := fun recs => ((recs.length : ℚ) / 10, 0)
    nextId := "strat-1" }

/-- The spec's example request for a registered symbol. -/
def reqAAPL : PredictionRequest :=
  { symbol := "AAPL", timeframe := "1d", features := none }

/-- The spec's example request for an unregistered symbol. -/
def reqUnknown : PredictionRequest :=
  { symbol := "???", timeframe := "1d", features := none }

theorem clamp01_nonneg (q : ℚ) : 0 ≤ clamp01 q := le_max_left 0 _

theorem clamp01_le_one (q : ℚ) : clamp01 q ≤ 1 :=
  max_le (by norm_num) (min_le_left 1 q)

/-- Helper: a successful manager prediction has its confidence clamped
into the unit interval and is stamped with the manager's clock. -/
theorem predict_ok_fields (m : TradingModelManager) (symbol timeframe : String)
    (features : Option Features) (p : PredDict)
    (h : m.predict symbol timeframe features = .ok p) :
    0 ≤ p.confidence ∧ p.confidence ≤ 1 ∧ p.timestamp = m.now := by
  unfold TradingModelManager.predict at h
  split at h
  · exact Except.noConfusion h
  · split at h
    · exact Except.noConfusion h
    · injection h with h
      subst h
      exact ⟨clamp01_nonneg _, clamp01_le_one _, rfl⟩

/-- Claim C10: the `/health` endpoint never fails — it is a total
function of the service state, always reports status "healthy", and
reports zero loaded models when `trading_models` is `None` and the
registry size otherwise. -/
theorem C10_health_check_total (st : ServiceState) :
    (health_check st).status = "healthy" ∧
    (st.trading_models = none → (health_check st).models_loaded = 0) ∧
    ∀ m, st.trading_models = some m →
      (health_check st).models_loaded = m.models.length := by
  refine ⟨rfl, ?_, ?_⟩
  · intro h
    simp [health_check, h]
  · intro m h
    simp [health_check, h]

theorem C10_health_check_total_witness :
    (health_check stNone).status = "healthy" ∧
    (health_check stNone).models_loaded = 0 :=
  ⟨(C10_health_check_total stNone).1, (C10_health_check_total stNone).2.1 rfl⟩

/-- Claim C9: every `/retrain` call that reaches the return statement
returns the constant task id string "retrain_models", regardless of the
symbols argument and of how many tasks were scheduled before; two
distinct calls get identical responses, so the task id does not
distinguish distinct jobs. -/
theorem C9_retrain_constant_task_id (st : ServiceState)
    (m : TradingModelManager) (tasks1 tasks2 : List Job)
    (syms1 syms2 : Option (List String))
    (h : st.trading_models = some m) :
    ∃ r1 l1 r2 l2,
      retrain_models st tasks1 syms1 = .ok (r1, l1) ∧
      retrain_models st tasks2 syms2 = .ok (r2, l2) ∧
      r1.task_id = "retrain_models" ∧ r1 = r2 := by
  refine ⟨{ message := "Model retraining started in background"
            task_id := "retrain_models" },
          tasks1 ++ [{ target := syms1, phase := TaskPhase.scheduled }],
          { message := "Model retraining started in background"
            task_id := "retrain_models" },
          tasks2 ++ [{ target := syms2, phase := TaskPhase.scheduled }],
          ?_, ?_, rfl, rfl⟩ <;>
    simp [retrain_models, h]

theorem C9_retrain_constant_task_id_witness :
    ∃ r1 l1 r2 l2,
      retrain_models (stV 1) [] none = .ok (r1, l1) ∧
      retrain_models (stV 1)
        [{ target := none, phase := TaskPhase.scheduled }]
        (some ["AAPL"]) = .ok (r2, l2) ∧
      r1.task_id = "retrain_models" ∧ r1 = r2 :=
  C9_retrain_constant_task_id (stV 1) (mgrV 1) []
    [{ target := none, phase := TaskPhase.scheduled }] none (some ["AAPL"]) rfl

/-- Claim C8: every failure inside `/predict` reaches the client as an
HTTP 500 whose detail is the string of the caught exception; in
particular the 503 raised for an uninitialized service is itself caught
by the except-Exception handler and re-raised as a 500, so the endpoint
never returns 503. -/
theorem C8_predict_failures_surface_as_500 (st : ServiceState)
    (req : PredictionRequest) :
    (∀ e, predict st req = .error e →
      e.status = 500 ∧
      ∃ exc, predictTry st req = .error exc ∧ e.detail = exc.str) ∧
    (st.trading_models = none →
      predict st req =
        .error { status := 500,
                 detail := "503: Trading models not initialized" }) := by
  constructor
  · intro e he
    unfold predict at he
    cases hq : predictTry st req with
    | ok a =>
      rw [hq] at he
      simp only [toServerError] at he
      exact Except.noConfusion he
    | error exc =>
      rw [hq] at he
      simp only [toServerError] at he
      injection he with he
      subst he
      exact ⟨rfl, exc, rfl, rfl⟩
  · intro h
    unfold predict predictTry
    rw [h]
    rfl

theorem C8_predict_failures_surface_as_500_witness :
    predict stNone reqAAPL =
      .error { status := 500,
               detail := "503: Trading models not initialized" } :=
  (C8_predict_failures_surface_as_500 stNone reqAAPL).2 rfl

/-- Claim C1: a predict call for a symbol with no ready handle in the
registry fails with `ModelUnavailable` inside the coordinator, and the
endpoint surfaces it to the caller as a structured error result (status
and detail naming the failure), never a silently swallowed one. -/
theorem C1_predict_model_unavailable (st : ServiceState)
    (mgr : TradingModelManager) (req : PredictionRequest)
    (h1 : st.trading_models = some mgr)
    (h2 : lookupReady mgr.models req.symbol = none) :
    mgr.predict req.symbol req.timeframe req.features =
      .error (.modelUnavailable req.symbol) ∧
    predict st req =
      .error { status := 500,
               detail := PredErr.toStr (.modelUnavailable req.symbol) } := by
  have hp : mgr.predict req.symbol req.timeframe req.features =
      .error (.modelUnavailable req.symbol) := by
    unfold TradingModelManager.predict
    rw [h2]
  refine ⟨hp, ?_⟩
  unfold predict predictTry
  simp only [h1]
  rw [hp]
  rfl

theorem C1_predict_model_unavailable_witness :
    TradingModelManager.predict (mgrV 1) reqUnknown.symbol
      reqUnknown.timeframe reqUnknown.features =
      .error (.modelUnavailable "???") ∧
    predict (stV 1) reqUnknown =
      .error { status := 500,
               detail := PredErr.toStr (.modelUnavailable "???") } :=
  C1_predict_model_unavailable (stV 1) (mgrV 1) reqUnknown rfl rfl

/-- Claim C4: a streaming message whose symbol is missing (or empty, the
same Python falsiness test) makes the loop send the inline error dict to
this listener and continue: the connection is not closed, every earlier
and later message is still processed in place, and other listeners —
separate invocations of `websocket_predictions` — are untouched. -/
theorem C4_ws_missing_symbol_keeps_subscription (st : ServiceState)
    (pre post : List ClientMsg) (sym tf : Option String)
    (h : falsyStr sym = true) :
    websocket_predictions st (pre ++ ClientMsg.request sym tf :: post) =
      websocket_predictions st pre ++
        WsOut.errorMsg "Symbol required" :: websocket_predictions st post := by
  simp [websocket_predictions, wsHandleMsg, h]

theorem C4_ws_missing_symbol_keeps_subscription_witness :
    websocket_predictions (stV 1)
      ([] ++ ClientMsg.request none none ::
        [ClientMsg.request (some "AAPL") (some "1d")]) =
      websocket_predictions (stV 1) [] ++
        WsOut.errorMsg "Symbol required" ::
          websocket_predictions (stV 1)
            [ClientMsg.request (some "AAPL") (some "1d")] :=
  C4_ws_missing_symbol_keeps_subscription (stV 1) []
    [ClientMsg.request (some "AAPL") (some "1d")] none none rfl

/-- Claim C5: a risk assessment with non-positive portfolio value or an
empty symbols list fails with `InvalidPortfolio`, and the endpoint
surfaces that failure to the caller. -/
theorem C5_assess_risk_invalid_portfolio (st : ServiceState)
    (svc : RiskService) (md : MarketData) (symbols : List String) (pv : ℚ)
    (hsvc : st.risk_service = some svc) (h : pv ≤ 0 ∨ symbols = []) :
    svc.assess_portfolio_risk md symbols pv =
      .error (.invalidPortfolio invalidPortfolioMsg) ∧
    assess_risk st md symbols pv =
      .error { status := 500,
               detail := RiskErr.toStr (.invalidPortfolio invalidPortfolioMsg) } := by
  have ha : svc.assess_portfolio_risk md symbols pv =
      .error (.invalidPortfolio invalidPortfolioMsg) := by
    unfold RiskService.assess_portfolio_risk
    rw [if_pos h]
  refine ⟨ha, ?_⟩
  unfold assess_risk
  simp only [hsvc]
  rw [ha]
  rfl

theorem C5_assess_risk_invalid_portfolio_witness :
    RiskService.assess_portfolio_risk svcRisk [] ["AAPL"] 0 =
      .error (.invalidPortfolio invalidPortfolioMsg) ∧
    assess_risk stRisk [] ["AAPL"] 0 =
      .error { status := 500,
               detail := RiskErr.toStr (.invalidPortfolio invalidPortfolioMsg) } :=
  C5_assess_risk_invalid_portfolio stRisk svcRisk [] ["AAPL"] 0 rfl
    (Or.inl le_rfl)

/-- Claim C7: risk assessment is deterministic — with the same market
data, symbols and portfolio value, its outcome does not depend on which
service state carries the risk service (there is no shared mutable
state), so two calls yield identical results, in particular identical
risk_score and risk_level. -/
theorem C7_assess_risk_deterministic (svc : RiskService) (md : MarketData)
    (symbols : List String) (pv : ℚ) (st1 st2 : ServiceState)
    (h1 : st1.risk_service = some svc) (h2 : st2.risk_service = some svc) :
    assess_risk st1 md symbols pv = assess_risk st2 md symbols pv ∧
    (assess_risk st1 md symbols pv).toOption.map RiskReport.risk_score =
      (assess_risk st2 md symbols pv).toOption.map RiskReport.risk_score ∧
    (assess_risk st1 md symbols pv).toOption.map RiskReport.risk_level =
      (assess_risk st2 md symbols pv).toOption.map RiskReport.risk_level := by
  have he : assess_risk st1 md symbols pv = assess_risk st2 md symbols pv := by
    unfold assess_risk
    simp only [h1, h2]
  exact ⟨he, by rw [he], by rw [he]⟩

theorem C7_assess_risk_deterministic_witness :
    assess_risk stRisk [] ["AAPL"] 10000 = assess_risk stRisk [] ["AAPL"] 10000 ∧
    (assess_risk stRisk [] ["AAPL"] 10000).toOption.map RiskReport.risk_score =
      (assess_risk stRisk [] ["AAPL"] 10000).toOption.map RiskReport.risk_score ∧
    (assess_risk stRisk [] ["AAPL"] 10000).toOption.map RiskReport.risk_level =
      (assess_risk stRisk [] ["AAPL"] 10000).toOption.map RiskReport.risk_level :=
  C7_assess_risk_deterministic svcRisk [] ["AAPL"] 10000 stRisk stRisk rfl rfl

/-- The concrete response of a successful predict call against the AAPL
fixture registry, at any model version. -/
def respAAPL : PredictionResponse :=
  { symbol := "AAPL"
    prediction := "buy"
    confidence := clamp01 (7 / 10)
    target_price := none
    stop_loss := none
    reasoning := "momentum"
    timestamp := "2024-01-01T00:00:00Z" }

/-- Claim C2 is refuted on the model-version conjunct: two service
states whose registries hold ready AAPL handles at different versions (1
and 2) produce identical successful predict responses, so the returned
response cannot contain the model version used — the `PredictionResponse`
model of `main.py` has no model-version field and the endpoint drops the
version the coordinator reports. -/
theorem C2_response_lacks_model_version :
    predict (stV 1) reqAAPL = predict (stV 2) reqAAPL ∧
    predict (stV 1) reqAAPL = .ok respAAPL ∧
    lookupReady (mgrV 1).models "AAPL" = some (handleV 1) ∧
    lookupReady (mgrV 2).models "AAPL" = some (handleV 2) ∧
    (handleV 1).version ≠ (handleV 2).version :=
  ⟨rfl, rfl, rfl, rfl, by decide⟩

/-- Claim C2 (amended): every successful predict call returns a response
whose prediction is one of "buy", "sell", "hold", whose confidence lies
in the unit interval (clamped there during normalization), and whose
timestamp is the coordinator's clock reading; the model version used is
not part of the response. -/
theorem C2_predict_success_shape (st : ServiceState)
    (req : PredictionRequest) (resp : PredictionResponse)
    (h : predict st req = .ok resp) :
    (resp.prediction = "buy" ∨ resp.prediction = "sell" ∨
      resp.prediction = "hold") ∧
    0 ≤ resp.confidence ∧ resp.confidence ≤ 1 ∧
    ∃ mgr, st.trading_models = some mgr ∧ resp.timestamp = mgr.now := by
  unfold predict at h
  cases hq : predictTry st req with
  | error e =>
    rw [hq] at h
    simp only [toServerError] at h
    exact Except.noConfusion h
  | ok a =>
    rw [hq] at h
    simp only [toServerError] at h
    injection h with h
    subst h
    unfold predictTry at hq
    cases hm : st.trading_models with
    | none =>
      rw [hm] at hq
      exact Except.noConfusion hq
    | some mgr =>
      simp only [hm] at hq
      cases hp : mgr.predict req.symbol req.timeframe req.features with
      | error e =>
        rw [hp] at hq
        exact Except.noConfusion hq
      | ok p =>
        rw [hp] at hq
        injection hq with hq
        subst hq
        obtain ⟨hc0, hc1, ht⟩ :=
          predict_ok_fields mgr req.symbol req.timeframe req.features p hp
        refine ⟨?_, hc0, hc1, mgr, rfl, ht⟩
        cases hact : p.action <;> simp [TradeAction.toStr, hact]

theorem C2_predict_success_shape_witness :
    (respAAPL.prediction = "buy" ∨ respAAPL.prediction = "sell" ∨
      respAAPL.prediction = "hold") ∧
    0 ≤ respAAPL.confidence ∧ respAAPL.confidence ≤ 1 ∧
    ∃ mgr, (stV 1).trading_models = some mgr ∧ respAAPL.timestamp = mgr.now :=
  C2_predict_success_shape (stV 1) reqAAPL respAAPL rfl

/-- Claim C6: in a strategy evaluation, when every symbol's prediction
fails the whole call fails with `StrategyUnavailable`; when at least one
symbol succeeds the call succeeds and returns one recommendation entry
per symbol in order — a degraded entry naming the failure for each failed
symbol and a valid entry carrying the prediction for each one that
succeeded — so per-symbol failures never abort sibling work. -/
theorem C6_strategy_partial_failures (svc : StrategyService)
    (mgr : TradingModelManager) (symbols : List String)
    (strategy_type : String) :
    ((∀ s ∈ symbols, (mgr.predict s "1d" none).isOk = false) →
      svc.analyze_strategy mgr symbols strategy_type =
        .error .strategyUnavailable) ∧
    ((∃ s ∈ symbols, (mgr.predict s "1d" none).isOk = true) →
      ∃ res, svc.analyze_strategy mgr symbols strategy_type = .ok res ∧
        res.recommendations = symbols.map (recEntry mgr)) ∧
    ∀ s, (∀ e, mgr.predict s "1d" none = .error e →
            recEntry mgr s = .degraded s e.toStr) ∧
         (∀ d, mgr.predict s "1d" none = .ok d →
            recEntry mgr s = .valid s d) := by
  refine ⟨?_, ?_, ?_⟩
  · intro hall
    unfold StrategyService.analyze_strategy
    have hcond : (symbols.all fun s => !(mgr.predict s "1d" none).isOk) = true := by
      simp only [List.all_eq_true]
      intro s hs
      simp [hall s hs]
    rw [if_pos hcond]
  · rintro ⟨s, hs, hok⟩
    unfold StrategyService.analyze_strategy
    rw [if_neg]
    · exact ⟨_, rfl, rfl⟩
    · intro hcontra
      rw [List.all_eq_true] at hcontra
      have hsb := hcontra s hs
      rw [hok] at hsb
      simp at hsb
  · intro s
    constructor
    · intro e he
      unfold recEntry
      rw [he]
    · intro d hd
      unfold recEntry
      rw [hd]

theorem C6_strategy_partial_failures_witness :
    ∃ res, svcStrat.analyze_strategy (mgrV 1) ["AAPL", "ZZZ"] "momentum" =
        .ok res ∧
      res.recommendations = (["AAPL", "ZZZ"] : List String).map (recEntry (mgrV 1)) :=
  (C6_strategy_partial_failures svcStrat (mgrV 1) ["AAPL", "ZZZ"]
    "momentum").2.1 ⟨"AAPL", by simp, rfl⟩

/-- Claim C3 is violated by the code: the `/retrain` endpoint applies no
per-model-id mutual exclusion and no explicit reject-or-queue policy.
Triggering a retrain for AAPL twice in quick succession is accepted both
times with identical responses (no `RetrainInProgress` rejection), two
independent background tasks targeting AAPL get scheduled, and under the
runtime's task semantics a state with both tasks running at once is
reachable. -/
theorem C3_retrain_two_triggers_both_run :
    ∃ r1 l1 r2 l2,
      retrain_models (stV 1) [] (some ["AAPL"]) = .ok (r1, l1) ∧
      retrain_models (stV 1) l1 (some ["AAPL"]) = .ok (r2, l2) ∧
      r1 = r2 ∧
      Relation.ReflTransGen TaskStep l2
        [{ target := some ["AAPL"], phase := TaskPhase.running },
         { target := some ["AAPL"], phase := TaskPhase.running }] ∧
      runningFor "AAPL"
        [{ target := some ["AAPL"], phase := TaskPhase.running },
         { target := some ["AAPL"], phase := TaskPhase.running }] = 2 := by
  refine ⟨_, _, _, _, rfl, rfl, rfl, ?_, by decide⟩
  have h1 : TaskStep
      [{ target := some ["AAPL"], phase := TaskPhase.scheduled },
       { target := some ["AAPL"], phase := TaskPhase.scheduled }]
      [{ target := some ["AAPL"], phase := TaskPhase.running },
       { target := some ["AAPL"], phase := TaskPhase.scheduled }] :=
    TaskStep.start []
      [{ target := some ["AAPL"], phase := TaskPhase.scheduled }]
      (some ["AAPL"])
  have h2 : TaskStep
      [{ target := some ["AAPL"], phase := TaskPhase.running },
       { target := some ["AAPL"], phase := TaskPhase.scheduled }]
      [{ target := some ["AAPL"], phase := TaskPhase.running },
       { target := some ["AAPL"], phase := TaskPhase.running }] :=
    TaskStep.start
      [{ target := some ["AAPL"], phase := TaskPhase.running }] []
      (some ["AAPL"])
  exact Relation.ReflTransGen.tail
    (Relation.ReflTransGen.tail Relation.ReflTransGen.refl h1) h2
